import Mathlib

/-!
Verification of the hisrules repository (`app.py`, a Streamlit single-page
search tool for hospital regulation PDFs).

The Python source is shallowly embedded: pure helpers (`create_sort_key`,
`get_pdf_embed_html`, the keyword mask, the map-merge expression) become Lean
functions; Streamlit session state becomes an explicit `String → Option SVal`
map threaded through the callbacks (`set_pdf_url`, `check_password`); the
Supabase client and the sentence-embedding model become records of fallible
(`Except`) functions; pandas DataFrames become `List MapRow`. Python machine
floats only occur as the two RPC threshold constants, which are modelled as
the exact rationals 3/10 and 1/2.
-/

namespace App

/-- A Python value stored in Streamlit session state.  The app only ever
stores strings, ints, booleans and `None`. -/
inductive SVal where
  | str : String → SVal
  | int : Int → SVal
  | bool : Bool → SVal
  | pynone : SVal
deriving DecidableEq

/-- Streamlit session state: a partial map from key to stored value
(`none` = key absent, as tested by Python's `in`). -/
def Session : Type := String → Option SVal

/-- `st.session_state[k] = v`. -/
def setKey (st : Session) (k : String) (v : SVal) : Session :=
  fun k2 => if k2 = k then some v else st k2

/-- `del st.session_state[k]`. -/
def delKey (st : Session) (k : String) : Session :=
  fun k2 => if k2 = k then none else st k2

/-- The session with no keys set (state of a fresh browser session). -/
def emptySession : Session := fun _ => none

/-- Python truthiness of a stored value (`if not x`). -/
def pyTruthy : SVal → Bool
  | SVal.str s => !(s == "")
  | SVal.int n => !(n == 0)
  | SVal.bool b => b
  | SVal.pynone => false

/-- One row of the locally cached `regulations_map` table
(`load_map_data` selects exactly these eight columns).  String columns are
`Option String` because a database cell may be NULL (pandas `NaN`). -/
structure MapRow where
  id : Nat
  ch_name : Option String
  std_id : Option String
  std_name : Option String
  me_id : Option String
  me_name : Option String
  pdf_filename : Option String
  pdf_url : Option String
deriving DecidableEq

/-- The paragraph returned by `get_pdf_embed_html` when no URL is given. -/
def noPdfMsg : String := "<p>PDF URL이 없습니다.</p>"

/-- The iframe template of `get_pdf_embed_html` with `final_url` spliced in
(`f"{pdf_url}?v={page_to_show}#page={page_to_show}"` plus the
`&navpanes=0&toolbar=0` suffix of the `src` attribute). -/
def iframeHtml (u : String) (p : Int) : String :=
  "\n        <iframe src=\"" ++ u ++ "?v=" ++ toString p ++ "#page=" ++ toString p ++
    "&navpanes=0&toolbar=0\" width=\"100%\" height=\"1000px\" style=\"border:none;\">\n            <p>PDF를 표시할 수 없습니다.</p>\n        </iframe>\n    "

/-- `get_pdf_embed_html(pdf_url, page)` from `app.py` lines 106-117.
`pdf_url : Option String` covers Python `None`; `not pdf_url` is true for
both `None` and the empty string. -/
def get_pdf_embed_html (pdf_url : Option String) (page : Int) : String :=
  match pdf_url with
  | none => noPdfMsg
  | some u =>
    if u = "" then noPdfMsg
    else iframeHtml u (max 1 page)

/-- Conversion of the `url` argument of `set_pdf_url` to a stored value. -/
def svalOfUrl : Option String → SVal
  | some s => SVal.str s
  | none => SVal.pynone

/-- `set_pdf_url(url, page)` callback from `app.py` lines 119-123: writes the
three keys `current_pdf_url`, `current_pdf_page`, `view_mode`. -/
def set_pdf_url (url : Option String) (page : Int) (st : Session) : Session :=
  setKey (setKey (setKey st "current_pdf_url" (svalOfUrl url))
    "current_pdf_page" (SVal.int page)) "view_mode" (SVal.str "preview")

/-- The page argument the viewer passes to `get_pdf_embed_html`
(`st.session_state.current_pdf_page`; the app only ever stores ints there,
initialised to 1). -/
def pageOf : Option SVal → Int
  | some (SVal.int p) => p
  | _ => 1

/-- The right-hand viewer column (`app.py` lines 361-367): when
`current_pdf_url` is truthy it renders `get_pdf_embed_html` of the stored url
and page, otherwise it renders an info box (modelled as `none`). -/
def viewer_html (st : Session) : Option String :=
  match st "current_pdf_url" with
  | some (SVal.str u) =>
    if pyTruthy (SVal.str u) then
      some (get_pdf_embed_html (some u) (pageOf (st "current_pdf_page")))
    else none
  | _ => none

/-- C4: for a present non-empty `pdf_url` the returned iframe's `src` is
`pdf_url` followed by `?v=` and `#page=` both carrying `max 1 page` (so the
target page is at least 1); for a missing or empty `pdf_url` the function
returns the no-URL paragraph instead. -/
theorem his_C4 (page : Int) :
    get_pdf_embed_html none page = "<p>PDF URL이 없습니다.</p>" ∧
    get_pdf_embed_html (some "") page = "<p>PDF URL이 없습니다.</p>" ∧
    ∀ u : String, u ≠ "" →
      1 ≤ max 1 page ∧
      get_pdf_embed_html (some u) page =
        "\n        <iframe src=\"" ++ u ++ "?v=" ++ toString (max 1 page) ++ "#page=" ++
          toString (max 1 page) ++
          "&navpanes=0&toolbar=0\" width=\"100%\" height=\"1000px\" style=\"border:none;\">\n            <p>PDF를 표시할 수 없습니다.</p>\n        </iframe>\n    " := by
  refine ⟨rfl, rfl, fun u hu => ⟨le_max_left 1 page, ?_⟩⟩
  simp [get_pdf_embed_html, iframeHtml, hu]

/-- Witness for C4 at `u = "a.pdf"`, `page = -3` (the clamp yields page 1). -/
theorem his_C4_witness :
    1 ≤ max 1 (-3 : Int) ∧
    get_pdf_embed_html (some "a.pdf") (-3) =
      "\n        <iframe src=\"" ++ "a.pdf" ++ "?v=" ++ toString (max 1 (-3 : Int)) ++ "#page=" ++
        toString (max 1 (-3 : Int)) ++
        "&navpanes=0&toolbar=0\" width=\"100%\" height=\"1000px\" style=\"border:none;\">\n            <p>PDF를 표시할 수 없습니다.</p>\n        </iframe>\n    " :=
  (his_C4 (-3)).2.2 "a.pdf" (by decide)

/-- Reading back the url just written by `set_pdf_url`. -/
theorem set_pdf_url_read_url (st : Session) (url : Option String) (page : Int) :
    set_pdf_url url page st "current_pdf_url" = some (svalOfUrl url) := by
  simp [set_pdf_url, setKey]

/-- Reading back the page just written by `set_pdf_url`. -/
theorem set_pdf_url_read_page (st : Session) (url : Option String) (page : Int) :
    set_pdf_url url page st "current_pdf_page" = some (SVal.int page) := by
  simp [set_pdf_url, setKey]

/-- Reading back the view mode just written by `set_pdf_url`. -/
theorem set_pdf_url_read_mode (st : Session) (url : Option String) (page : Int) :
    set_pdf_url url page st "view_mode" = some (SVal.str "preview") := by
  simp [set_pdf_url, setKey]

/-- C9: `set_pdf_url` writes exactly the three keys `current_pdf_url`,
`current_pdf_page` (to its arguments) and `view_mode` (to `"preview"`), and
leaves every other session-state key unchanged; since `view_mode` becomes
`"preview"` unconditionally, selecting a document while in fullscreen mode
switches the view back to preview. -/
theorem his_C9 (st : Session) (url : Option String) (page : Int) :
    set_pdf_url url page st "current_pdf_url" = some (svalOfUrl url) ∧
    set_pdf_url url page st "current_pdf_page" = some (SVal.int page) ∧
    set_pdf_url url page st "view_mode" = some (SVal.str "preview") ∧
    ∀ k : String, k ≠ "current_pdf_url" → k ≠ "current_pdf_page" → k ≠ "view_mode" →
      set_pdf_url url page st k = st k := by
  refine ⟨set_pdf_url_read_url st url page, set_pdf_url_read_page st url page,
    set_pdf_url_read_mode st url page, fun k h1 h2 h3 => ?_⟩
  simp [set_pdf_url, setKey, h1, h2, h3]

/-- Witness for C9: in an empty session, setting url `"u.pdf"` page 3 leaves
the unrelated key `ai_status` absent and sets the three written keys. -/
theorem his_C9_witness :
    set_pdf_url (some "u.pdf") 3 emptySession "current_pdf_url" = some (svalOfUrl (some "u.pdf")) ∧
    set_pdf_url (some "u.pdf") 3 emptySession "view_mode" = some (SVal.str "preview") ∧
    set_pdf_url (some "u.pdf") 3 emptySession "ai_status" = emptySession "ai_status" :=
  ⟨(his_C9 emptySession (some "u.pdf") 3).1,
   (his_C9 emptySession (some "u.pdf") 3).2.2.1,
   (his_C9 emptySession (some "u.pdf") 3).2.2.2 "ai_status" (by decide) (by decide) (by decide)⟩

/-- `check_password` from `app.py` lines 128-138, as a function of the
configured common password and the session state.  The returned `Bool`
records whether the error box `st.error("비밀번호가 올바르지 않습니다.")`
was shown. -/
def check_password (commonPw : String) (st : Session) : Session × Bool :=
  match st "password" with
  | none => (setKey st "is_authenticated" (SVal.bool false), false)
  | some v =>
    if v = SVal.str "" then (setKey st "is_authenticated" (SVal.bool false), false)
    else if v = SVal.str commonPw then
      (delKey (setKey st "is_authenticated" (SVal.bool true)) "password", false)
    else (setKey st "is_authenticated" (SVal.bool false), true)

/-- `setdefault`: the session-state initialisation pattern
`if k not in st.session_state: st.session_state[k] = v`. -/
def setDefault (st : Session) (k : String) (v : SVal) : Session :=
  match st k with
  | some _ => st
  | none => setKey st k v

/-- The session-state initialisation block of `app.py` lines 141-150. -/
def initState (st : Session) : Session :=
  setDefault (setDefault (setDefault (setDefault (setDefault st
    "is_authenticated" (SVal.bool false))
    "view_mode" (SVal.str "preview"))
    "current_pdf_url" SVal.pynone)
    "current_pdf_page" (SVal.int 1))
    "ai_status" (SVal.str "")

/-- What a script run renders, abstracted to the granularity C5 needs:
the page title, the login form, and a single marker for the whole
post-login body (service connection, data load, search modes, viewer). -/
inductive Widget where
  | pageTitle
  | loginForm
  | mainApp
deriving DecidableEq

/-- The top-level script flow of `app.py` lines 141-176: initialise session
defaults, then `if not st.session_state.is_authenticated:` render the title
and the login form and `st.stop()`; otherwise the rest of the script
(abstracted as `Widget.mainApp`) runs. -/
def script_widgets (st : Session) : List Widget :=
  if pyTruthy ((initState st "is_authenticated").getD SVal.pynone) then
    [Widget.pageTitle, Widget.mainApp]
  else
    [Widget.pageTitle, Widget.loginForm]

/-- Session holding only an empty submitted password. -/
def c5state : Session := setKey emptySession "password" (SVal.str "")

/-- C5 counterexample: the claim's iff fails when the configured common
password is the empty string.  Here the submitted password (`""`) equals the
configured common password (`""`), yet `check_password` sets
`is_authenticated` to `false`, because the empty-submission branch is checked
first. -/
theorem his_C5_cex :
    c5state "password" = some (SVal.str "") ∧
    (check_password "" c5state).1 "is_authenticated" = some (SVal.bool false) := by
  constructor <;> rfl

/-- C5 amended: whenever `is_authenticated` is false after initialisation,
the script run renders only the title and the login form and stops (the main
app is never reached); and `check_password` sets `is_authenticated` to true
iff the submitted password is non-empty and equals the configured common
password (an absent submission always deauthenticates), deleting the stored
password on success. -/
theorem his_C5_amended :
    (∀ st : Session, pyTruthy ((initState st "is_authenticated").getD SVal.pynone) = false →
      script_widgets st = [Widget.pageTitle, Widget.loginForm] ∧
      Widget.mainApp ∉ script_widgets st) ∧
    (∀ (common : String) (st : Session),
      (st "password" = none →
        (check_password common st).1 "is_authenticated" = some (SVal.bool false)) ∧
      (∀ pw : String, st "password" = some (SVal.str pw) →
        ((check_password common st).1 "is_authenticated" = some (SVal.bool true) ↔
          (pw ≠ "" ∧ pw = common)) ∧
        ((pw ≠ "" ∧ pw = common) → (check_password common st).1 "password" = none))) := by
  constructor
  · intro st h
    constructor
    · simp [script_widgets, h]
    · simp [script_widgets, h]
  · intro common st
    constructor
    · intro h
      simp [check_password, h, setKey]
    · intro pw h
      by_cases hempty : pw = ""
      · subst hempty
        constructor
        · simp [check_password, h, setKey]
        · rintro ⟨hne, _⟩
          exact absurd rfl hne
      · by_cases hc : pw = common
        · subst hc
          constructor
          · simp [check_password, h, hempty, setKey, delKey]
          · intro _
            simp [check_password, h, hempty, setKey, delKey]
        · constructor
          · simp [check_password, h, hempty, hc, setKey]
          · rintro ⟨_, hcontra⟩
            exact absurd hcontra hc

/-- Session holding the submitted password `"pw"`. -/
def c5auth : Session := setKey emptySession "password" (SVal.str "pw")

/-- Witness for the amended C5: a fresh session renders only the login page,
and submitting the correct non-empty password `"pw"` authenticates. -/
theorem his_C5_amended_witness :
    (script_widgets emptySession = [Widget.pageTitle, Widget.loginForm] ∧
      Widget.mainApp ∉ script_widgets emptySession) ∧
    ((check_password "pw" c5auth).1 "is_authenticated" = some (SVal.bool true) ↔
      ("pw" ≠ "" ∧ "pw" = "pw")) :=
  ⟨his_C5_amended.1 emptySession (by decide),
   ((his_C5_amended.2 "pw" c5auth).2 "pw" (by decide)).1⟩

/-- C6 counterexample: clicking a body-text (chunk) search result for page 7
of `u.pdf` points the viewer at exactly the single page 7 (`?v=7#page=7`);
no context window of pages around 7 is derived anywhere. -/
theorem his_C6_cex :
    viewer_html (set_pdf_url (some "u.pdf") 7 emptySession) =
      some ("\n        <iframe src=\"u.pdf?v=7#page=7&navpanes=0&toolbar=0\" width=\"100%\" height=\"1000px\" style=\"border:none;\">\n            <p>PDF를 표시할 수 없습니다.</p>\n        </iframe>\n    ") := by
  rfl

/-- C6 amended: after a body-text search result targeting page `p` is
clicked (`set_pdf_url(url, page_num)`), the viewer renders the single page
`max 1 p` of that PDF via the URL fragment; there is no page-context
windowing in this iteration. -/
theorem his_C6_amended (st : Session) (u : String) (p : Int) (hu : u ≠ "") :
    viewer_html (set_pdf_url (some u) p st) =
      some ("\n        <iframe src=\"" ++ u ++ "?v=" ++ toString (max 1 p) ++ "#page=" ++
        toString (max 1 p) ++
        "&navpanes=0&toolbar=0\" width=\"100%\" height=\"1000px\" style=\"border:none;\">\n            <p>PDF를 표시할 수 없습니다.</p>\n        </iframe>\n    ") := by
  have h1 : set_pdf_url (some u) p st "current_pdf_url" = some (SVal.str u) :=
    set_pdf_url_read_url st (some u) p
  have h2 : set_pdf_url (some u) p st "current_pdf_page" = some (SVal.int p) :=
    set_pdf_url_read_page st (some u) p
  simp [viewer_html, h1, h2, pyTruthy, pageOf, get_pdf_embed_html, iframeHtml, hu]

/-- Witness for the amended C6 at `u = "u.pdf"`, `p = 7`. -/
theorem his_C6_amended_witness :
    viewer_html (set_pdf_url (some "u.pdf") 7 emptySession) =
      some ("\n        <iframe src=\"" ++ "u.pdf" ++ "?v=" ++ toString (max 1 (7 : Int)) ++ "#page=" ++
        toString (max 1 (7 : Int)) ++
        "&navpanes=0&toolbar=0\" width=\"100%\" height=\"1000px\" style=\"border:none;\">\n            <p>PDF를 표시할 수 없습니다.</p>\n        </iframe>\n    ") :=
  his_C6_amended emptySession "u.pdf" 7 (by decide)

/-- The two Supabase vector-search RPC endpoints the app can call. -/
inductive RpcName where
  | match_map
  | match_chunks_all
deriving DecidableEq

/-- The argument dictionary passed to `supabase.rpc`: the encoded query
vector plus `match_threshold` and `match_count`.  The Python float
thresholds 0.3 and 0.5 are modelled as the exact rationals 3/10 and 1/2. -/
structure RpcParams where
  query_vector : List Int
  match_threshold : ℚ
  match_count : Nat
deriving DecidableEq

/-- A row of an RPC response (`response.data`).  Only the `id` column is
consumed by the title-search merge; the remaining columns are irrelevant to
the claims and are left out. -/
structure AiRow where
  id : Nat
deriving DecidableEq

/-- The Supabase client: an environment mapping each RPC invocation to a
response or a raised exception. -/
structure SupabaseClient where
  rpc : RpcName → RpcParams → Except String (List AiRow)

/-- The sentence-embedding model: `encode` may raise. -/
structure AiModel where
  encode : String → Except String (List Int)

/-- The `match_map` similarity threshold (the Python float 0.3). -/
def mapThreshold : ℚ := 3/10

/-- The `match_chunks_all` similarity threshold (the Python float 0.5). -/
def chunksThreshold : ℚ := 1/2

/-- The radio-button label of the title/classification mode. -/
def titleMode : String := "[AI] 제목/분류 검색"

/-- `run_ai_search` from `app.py` lines 73-104, instrumented with the list
of RPC invocations it performs.  Mirrors the source: guard on empty query or
missing services, encode the query, dispatch `match_map` (threshold 3/10,
count 10) in title/classification mode and `match_chunks_all` (threshold
1/2, count 5) in every other mode, and catch every exception as
`([], None)`. -/
def run_ai_search_traced (query_text search_mode : String)
    (sb : Option SupabaseClient) (model : Option AiModel) :
    (List AiRow × Option String) × List (RpcName × RpcParams) :=
  match sb, model with
  | some sbc, some m =>
    if query_text = "" then (([], none), [])
    else
      match m.encode query_text with
      | Except.error _ => (([], none), [])
      | Except.ok vec =>
        if search_mode = titleMode then
          match sbc.rpc RpcName.match_map ⟨vec, mapThreshold, 10⟩ with
          | Except.ok data => ((data, some "map"), [(RpcName.match_map, ⟨vec, mapThreshold, 10⟩)])
          | Except.error _ => (([], none), [(RpcName.match_map, ⟨vec, mapThreshold, 10⟩)])
        else
          match sbc.rpc RpcName.match_chunks_all ⟨vec, chunksThreshold, 5⟩ with
          | Except.ok data => ((data, some "chunks"), [(RpcName.match_chunks_all, ⟨vec, chunksThreshold, 5⟩)])
          | Except.error _ => (([], none), [(RpcName.match_chunks_all, ⟨vec, chunksThreshold, 5⟩)])
  | _, _ => (([], none), [])

/-- The value `run_ai_search` returns to its caller. -/
def run_ai_search (query_text search_mode : String)
    (sb : Option SupabaseClient) (model : Option AiModel) :
    List AiRow × Option String :=
  (run_ai_search_traced query_text search_mode sb model).1

/-- C2: with a non-empty query and connected services (and the embedding
succeeding), `run_ai_search` dispatches exactly one RPC: `match_map` with
threshold 3/10 and count 10 in title/classification mode, returning the
response data tagged `"map"`; `match_chunks_all` with threshold 1/2 and
count 5 in every other mode, returning the data tagged `"chunks"`. -/
theorem his_C2 (sbc : SupabaseClient) (m : AiModel) (q : String) (vec : List Int)
    (hq : q ≠ "") (henc : m.encode q = Except.ok vec) :
    (∀ data, sbc.rpc RpcName.match_map ⟨vec, mapThreshold, 10⟩ = Except.ok data →
      run_ai_search_traced q titleMode (some sbc) (some m) =
        ((data, some "map"), [(RpcName.match_map, ⟨vec, mapThreshold, 10⟩)])) ∧
    (∀ mode data, mode ≠ titleMode →
      sbc.rpc RpcName.match_chunks_all ⟨vec, chunksThreshold, 5⟩ = Except.ok data →
      run_ai_search_traced q mode (some sbc) (some m) =
        ((data, some "chunks"), [(RpcName.match_chunks_all, ⟨vec, chunksThreshold, 5⟩)])) := by
  constructor
  · intro data hrpc
    simp [run_ai_search_traced, hq, henc, hrpc]
  · intro mode data hmode hrpc
    simp [run_ai_search_traced, hq, henc, hmode, hrpc]

/-- A concrete Supabase client for witnesses: both RPCs succeed. -/
def wSb : SupabaseClient :=
  ⟨fun name _ =>
    match name with
    | RpcName.match_map => Except.ok [⟨11⟩, ⟨7⟩]
    | RpcName.match_chunks_all => Except.ok [⟨3⟩]⟩

/-- A concrete embedding model for witnesses. -/
def wModel : AiModel := ⟨fun _ => Except.ok [1, 0, 2]⟩

/-- Witness for C2: the query `"낙상"` dispatches `match_map` in title mode
and `match_chunks_all` in keyword mode. -/
theorem his_C2_witness :
    run_ai_search_traced "낙상" titleMode (some wSb) (some wModel) =
      (([⟨11⟩, ⟨7⟩], some "map"), [(RpcName.match_map, ⟨[1, 0, 2], mapThreshold, 10⟩)]) ∧
    run_ai_search_traced "낙상" "[AI] 본문 내용 검색" (some wSb) (some wModel) =
      (([⟨3⟩], some "chunks"), [(RpcName.match_chunks_all, ⟨[1, 0, 2], chunksThreshold, 5⟩)]) :=
  ⟨(his_C2 wSb wModel "낙상" [1, 0, 2] (by decide) rfl).1 [⟨11⟩, ⟨7⟩] rfl,
   (his_C2 wSb wModel "낙상" [1, 0, 2] (by decide) rfl).2 "[AI] 본문 내용 검색" [⟨3⟩]
     (by decide) rfl⟩

/-- C8: `run_ai_search` never propagates an exception.  An empty query, a
missing client, a missing model, a failing embedding, or a failing RPC all
yield `([], None)`; and any result other than `([], None)` comes from a
successful dispatched RPC, whose data it carries. -/
theorem his_C8 (q mode : String) (sb : Option SupabaseClient) (model : Option AiModel) :
    ((q = "" ∨ sb = none ∨ model = none) → run_ai_search q mode sb model = ([], none)) ∧
    (∀ sbc m e, sb = some sbc → model = some m → m.encode q = Except.error e →
      run_ai_search q mode sb model = ([], none)) ∧
    (∀ sbc m vec e, sb = some sbc → model = some m → m.encode q = Except.ok vec →
      ((mode = titleMode ∧ sbc.rpc RpcName.match_map ⟨vec, mapThreshold, 10⟩ = Except.error e) ∨
       (mode ≠ titleMode ∧ sbc.rpc RpcName.match_chunks_all ⟨vec, chunksThreshold, 5⟩ = Except.error e)) →
      run_ai_search q mode sb model = ([], none)) ∧
    (run_ai_search q mode sb model ≠ ([], none) →
      ∃ sbc name params data tag, sb = some sbc ∧ sbc.rpc name params = Except.ok data ∧
        run_ai_search q mode sb model = (data, some tag)) := by
  refine ⟨?_, ?_, ?_, ?_⟩
  · rintro (hq | hsb | hm)
    · cases sb with
      | none => rfl
      | some sbc =>
        cases model with
        | none => rfl
        | some m => simp [run_ai_search, run_ai_search_traced, hq]
    · subst hsb; rfl
    · subst hm
      cases sb with
      | none => rfl
      | some sbc => rfl
  · rintro sbc m e rfl rfl henc
    by_cases hq : q = ""
    · simp [run_ai_search, run_ai_search_traced, hq]
    · simp [run_ai_search, run_ai_search_traced, hq, henc]
  · rintro sbc m vec e rfl rfl henc hfail
    by_cases hq : q = ""
    · simp [run_ai_search, run_ai_search_traced, hq]
    · rcases hfail with ⟨hmode, hrpc⟩ | ⟨hmode, hrpc⟩
      · simp [run_ai_search, run_ai_search_traced, hq, henc, hmode, hrpc]
      · simp [run_ai_search, run_ai_search_traced, hq, henc, hmode, hrpc]
  · intro hne
    cases sb with
    | none => exact absurd rfl hne
    | some sbc =>
      cases model with
      | none => exact absurd rfl hne
      | some m =>
        by_cases hq : q = ""
        · exact absurd (by simp [run_ai_search, run_ai_search_traced, hq]) hne
        · cases henc : m.encode q with
          | error e =>
            exact absurd (by simp [run_ai_search, run_ai_search_traced, hq, henc]) hne
          | ok vec =>
            by_cases hmode : mode = titleMode
            · cases hrpc : sbc.rpc RpcName.match_map ⟨vec, mapThreshold, 10⟩ with
              | error e =>
                exact absurd
                  (by simp [run_ai_search, run_ai_search_traced, hq, henc, hmode, hrpc]) hne
              | ok data =>
                refine ⟨sbc, RpcName.match_map, ⟨vec, mapThreshold, 10⟩, data, "map", rfl, hrpc, ?_⟩
                simp [run_ai_search, run_ai_search_traced, hq, henc, hmode, hrpc]
            · cases hrpc : sbc.rpc RpcName.match_chunks_all ⟨vec, chunksThreshold, 5⟩ with
              | error e =>
                exact absurd
                  (by simp [run_ai_search, run_ai_search_traced, hq, henc, hmode, hrpc]) hne
              | ok data =>
                refine ⟨sbc, RpcName.match_chunks_all, ⟨vec, chunksThreshold, 5⟩, data, "chunks", rfl, hrpc, ?_⟩
                simp [run_ai_search, run_ai_search_traced, hq, henc, hmode, hrpc]

/-- A client whose `match_map` raises, for the C8 witness. -/
def wSbFail : SupabaseClient := ⟨fun _ _ => Except.error "timeout"⟩

/-- Witness for C8: the empty query, and a raising RPC, both yield
`([], None)`. -/
theorem his_C8_witness :
    run_ai_search "" titleMode (some wSb) (some wModel) = ([], none) ∧
    run_ai_search "낙상" titleMode (some wSbFail) (some wModel) = ([], none) :=
  ⟨(his_C8 "" titleMode (some wSb) (some wModel)).1 (Or.inl rfl),
   (his_C8 "낙상" titleMode (some wSbFail) (some wModel)).2.2.1 wSbFail wModel [1, 0, 2]
     "timeout" rfl rfl rfl (Or.inl ⟨rfl, rfl⟩)⟩

/-- The title-search merge from `app.py` line 335:
`map_data[map_data['id'].isin(result_ids)].set_index('id').loc[result_ids].reset_index()`.
`.loc` raises `KeyError` when a requested id is absent from the (filtered)
index — modelled as `none`; otherwise, for each AI-returned id in order, it
yields every cached row carrying that id. -/
def mergeMapResults (mapData : List MapRow) (resultIds : List Nat) : Option (List MapRow) :=
  if resultIds.all (fun i => mapData.any (fun r => r.id == i)) then
    some (resultIds.flatMap (fun i => mapData.filter (fun r => r.id == i)))
  else none

/-- Under distinct cached ids, filtering the cache by the id of one of its
rows yields exactly that row. -/
theorem filter_id_eq_singleton (mapData : List MapRow) (r : MapRow)
    (hnd : (mapData.map (fun x => x.id)).Nodup) (hr : r ∈ mapData) :
    mapData.filter (fun x => x.id == r.id) = [r] := by
  induction mapData with
  | nil => cases hr
  | cons a l ih =>
    rw [List.map_cons, List.nodup_cons] at hnd
    rcases List.mem_cons.mp hr with rfl | hrl
    · have hnone : l.filter (fun x => x.id == r.id) = [] := by
        rw [List.filter_eq_nil_iff]
        intro x hx
        simp only [beq_iff_eq]
        intro hcontra
        exact hnd.1 (hcontra ▸ List.mem_map_of_mem (fun y => y.id) hx)
      simp [List.filter_cons, hnone]
    · have hne : (a.id == r.id) = false := by
        rw [beq_eq_false_iff_ne]
        intro hcontra
        exact hnd.1 (hcontra ▸ List.mem_map_of_mem (fun y => y.id) hrl)
      simp [List.filter_cons, hne, ih hnd.2 hrl]

/-- The merged rows listed by AI-id order, under the amended hypotheses. -/
theorem merge_flatMap_ids (mapData : List MapRow)
    (hnd : (mapData.map (fun x => x.id)).Nodup) :
    ∀ ids : List Nat, (∀ i ∈ ids, ∃ r ∈ mapData, r.id = i) →
      ((ids.flatMap fun i => mapData.filter fun r => r.id == i).map fun r => r.id) = ids := by
  intro ids
  induction ids with
  | nil => intro _; rfl
  | cons i t ih =>
    intro h
    obtain ⟨r, hr, hid⟩ := h i (List.mem_cons_self i t)
    subst hid
    rw [List.flatMap_cons, List.map_append,
      filter_id_eq_singleton mapData r hnd hr,
      ih fun j hj => h j (List.mem_cons_of_mem _ hj)]
    rfl

/-- C3 counterexample: the AI can return an id that is not in the cached
`map_data` (the cache is 600 s stale), in which case `.loc` raises
`KeyError` and no accordion DataFrame at all is produced — refuting the
claim for this non-empty result list. -/
theorem his_C3_cex :
    ([2] : List Nat) ≠ [] ∧
    mergeMapResults [⟨1, some "1장", some "HIS-1", some "표준", some "ME-1",
      some "조사항목", some "f.pdf", some "http://x/f.pdf"⟩] [2] = none := by
  constructor
  · decide
  · rfl

/-- C3 amended: provided every AI-returned id is present in the cached
`map_data` and the cached ids are distinct, the merge succeeds and produces
exactly the cached rows whose id is among the AI-returned ids, arranged in
the AI-returned id order. -/
theorem his_C3_amended (mapData : List MapRow) (ids : List Nat)
    (hnd : (mapData.map (fun r => r.id)).Nodup)
    (hin : ∀ i ∈ ids, ∃ r ∈ mapData, r.id = i) :
    ∃ out, mergeMapResults mapData ids = some out ∧
      (out.map fun r => r.id) = ids ∧
      ∀ r, r ∈ out ↔ (r ∈ mapData ∧ r.id ∈ ids) := by
  have hall : ids.all (fun i => mapData.any fun r => r.id == i) = true := by
    rw [List.all_eq_true]
    intro i hi
    obtain ⟨r, hr, hid⟩ := hin i hi
    rw [List.any_eq_true]
    exact ⟨r, hr, by simp [hid]⟩
  refine ⟨ids.flatMap fun i => mapData.filter fun r => r.id == i,
    by simp [mergeMapResults, hall], merge_flatMap_ids mapData hnd ids hin, fun r => ?_⟩
  constructor
  · intro hmem
    obtain ⟨i, hi, hfil⟩ := List.mem_flatMap.mp hmem
    have := List.mem_filter.mp hfil
    exact ⟨this.1, by rw [beq_iff_eq] at this; exact this.2 ▸ hi⟩
  · rintro ⟨hmap, hid⟩
    exact List.mem_flatMap.mpr ⟨r.id, hid, List.mem_filter.mpr ⟨hmap, by simp⟩⟩

/-- A sample cached row used by concrete witnesses. -/
def sampleRow : MapRow :=
  ⟨1, some "1장", some "HIS-1", some "표준", some "ME-1", some "조사항목",
    some "f.pdf", some "http://x/f.pdf"⟩

/-- Witness for the amended C3 on a one-row cache with the AI returning the
cached id. -/
theorem his_C3_amended_witness :
    ∃ out, mergeMapResults [sampleRow] [1] = some out ∧
      (out.map fun r => r.id) = [1] ∧
      ∀ r, r ∈ out ↔ (r ∈ [sampleRow] ∧ r.id ∈ ([1] : List Nat)) :=
  his_C3_amended [sampleRow] [1] (by decide) (by decide)

/-- First-occurrence deduplication: the distinct group keys in the order
pandas `groupby(..., sort=False)` produces them. -/
def dedupFirst : List String → List String
  | [] => []
  | k :: ks => k :: (dedupFirst ks).filter (fun x => !(x == k))

/-- Keys of `dedupFirst` come from the original list. -/
theorem mem_dedupFirst {x : String} : ∀ {l : List String}, x ∈ dedupFirst l → x ∈ l := by
  intro l
  induction l with
  | nil => intro h; cases h
  | cons k ks ih =>
    intro h
    rcases List.mem_cons.mp h with rfl | hmem
    · exact List.mem_cons_self _ _
    · exact List.mem_cons_of_mem _ (ih (List.mem_filter.mp hmem).1)

/-- pandas `df.groupby(key, sort=False)` (default `dropna=True`): the
distinct non-null key values in first-occurrence order, each paired with the
sub-list of rows carrying that key, in original order. -/
def groupByKey (key : MapRow → Option String) (rows : List MapRow) :
    List (String × List MapRow) :=
  (dedupFirst (rows.filterMap key)).map
    fun k => (k, rows.filter fun r => key r == some k)

/-- An inner accordion group: `with st.expander(f"📙 {std_id} {std_name}")`
and its measurable-element buttons.  `header_id` is
`std_df.iloc[0]['std_id']`. -/
structure StdGroup where
  header_id : Option String
  std_name : String
  rows : List MapRow
deriving DecidableEq

/-- An outer accordion group: `with st.expander(f"📂 {ch_name}")`. -/
structure ChapterGroup where
  ch_name : String
  stds : List StdGroup
deriving DecidableEq

/-- The accordion structure rendered by `app.py` lines 235-246 (default) and
lines 338-349 (filtered) — both loops group `df` by `ch_name`, then inside
by `std_name`, take `std_df.iloc[0]['std_id']` as the header id, and emit a
button per row. -/
def renderAccordion (df : List MapRow) : List ChapterGroup :=
  (groupByKey (fun r => r.ch_name) df).map fun g =>
    ⟨g.1, (groupByKey (fun r => r.std_name) g.2).map fun sg =>
      ⟨sg.2.head?.bind (fun r => r.std_id), sg.1, sg.2⟩⟩

/-- Membership in a `groupByKey` group determines the row's key value. -/
theorem groupByKey_mem {key : MapRow → Option String} {rows : List MapRow}
    {k : String} {g : List MapRow} (h : (k, g) ∈ groupByKey key rows) :
    g = (rows.filter fun r => key r == some k) ∧ ∃ r ∈ rows, key r = some k := by
  obtain ⟨k2, hk2, heq⟩ := List.mem_map.mp h
  have hk : k2 = k := congrArg Prod.fst heq
  subst hk
  refine ⟨(congrArg Prod.snd heq).symm, ?_⟩
  obtain ⟨r, hr, hkey⟩ := List.mem_filterMap.mp (mem_dedupFirst hk2)
  exact ⟨r, hr, hkey⟩

/-- C7: in the accordion (shared by the default and the filtered
renderings), every measurable-element button sits under the standard group
of its own row's `std_name` and the chapter group of its own row's
`ch_name`, and each standard header carries the `std_id` of the first row of
its group. -/
theorem his_C7 (df : List MapRow) :
    ∀ ch ∈ renderAccordion df, ∀ sg ∈ ch.stds,
      (∃ r0 rest, sg.rows = r0 :: rest ∧ sg.header_id = r0.std_id) ∧
      ∀ r ∈ sg.rows, r ∈ df ∧ r.ch_name = some ch.ch_name ∧ r.std_name = some sg.std_name := by
  intro ch hch sg hsg
  obtain ⟨⟨k, chrows⟩, hg, hcheq⟩ := List.mem_map.mp hch
  obtain ⟨hchrows, _, _, _⟩ := groupByKey_mem hg
  subst hcheq
  obtain ⟨⟨k2, srows⟩, hg2, hsgeq⟩ := List.mem_map.mp hsg
  obtain ⟨hsrows, r2, hr2, hkey2⟩ := groupByKey_mem hg2
  subst hsgeq
  constructor
  · have hr2mem : r2 ∈ srows := by
      rw [hsrows]
      exact List.mem_filter.mpr ⟨hr2, by simp [hkey2]⟩
    cases hsr : srows with
    | nil => rw [hsr] at hr2mem; cases hr2mem
    | cons r0 rest => exact ⟨r0, rest, rfl, by simp⟩
  · intro r hr
    have h1 := List.mem_filter.mp (hsrows ▸ hr)
    have h2 := List.mem_filter.mp (hchrows ▸ h1.1)
    refine ⟨h2.1, ?_, ?_⟩
    · have := h2.2
      rwa [beq_iff_eq] at this
    · have := h1.2
      rwa [beq_iff_eq] at this

/-- The chapter group the accordion builds from `[sampleRow]`. -/
def sampleChapter : ChapterGroup :=
  ⟨"1장", [⟨some "HIS-1", "표준", [sampleRow]⟩]⟩

/-- The standard group the accordion builds from `[sampleRow]`. -/
def sampleStd : StdGroup := ⟨some "HIS-1", "표준", [sampleRow]⟩

/-- Witness for C7 on the one-row table `[sampleRow]`. -/
theorem his_C7_witness :
    sampleRow ∈ [sampleRow] ∧ sampleRow.ch_name = some sampleChapter.ch_name ∧
      sampleRow.std_name = some sampleStd.std_name :=
  (his_C7 [sampleRow] sampleChapter (by decide) sampleStd (by decide)).2 sampleRow
    (by decide)

/-- The delimiter class of `re.split(r'[.-]', ...)`. -/
def delim (c : Char) : Bool := c == '.' || c == '-'

/-- Python `p.isdigit()` for a split part (ASCII model: true iff the part is
non-empty and all its characters are decimal digits; identifiers in
`regulations_map` are ASCII, so the unicode-digit `ValueError` fallback of
the source is unreachable). -/
def pyIsDigit (p : List Char) : Bool := !p.isEmpty && p.all Char.isDigit

/-- Python `int(p)` on an all-digit part. -/
def natOfDigits (p : List Char) : Nat := p.foldl (fun n c => 10 * n + (c.toNat - 48)) 0

/-- `create_sort_key` from `app.py` lines 57-62:
`tuple(int(p) for p in re.split(r'[.-]', str(std_id_str)) if p.isdigit())`,
with `List.splitOnP` as the semantics of `re.split` on a single-character
alternative class. -/
def create_sort_key (s : String) : List Nat :=
  ((s.data.splitOnP delim).filter pyIsDigit).map natOfDigits

/-- Python `str(cell)` on a possibly-NaN DataFrame cell. -/
def cellStr : Option String → String
  | none => "nan"
  | some s => s

/-- The `std_sort_key` column added on `app.py` line 64. -/
def std_sort_key (r : MapRow) : List Nat := create_sort_key (cellStr r.std_id)

/-- The `me_id` cell under the order pandas sorting uses: NaN sorts last
(`na_position='last'`), strings by ordinary string order. -/
def meTop (r : MapRow) : WithTop String :=
  match r.me_id with
  | none => ⊤
  | some s => (s : WithTop String)

/-- The combined sort key of `df.sort_values(by=['std_sort_key', 'me_id'])`:
the tuple column lexicographically first, then `me_id`. -/
def rowKey (r : MapRow) : Lex (List Nat × WithTop String) := toLex (std_sort_key r, meTop r)

/-- The nondecreasing-order relation the sort establishes. -/
def rowLe (a b : MapRow) : Prop := rowKey a ≤ rowKey b

instance : DecidableRel rowLe := fun a b => inferInstanceAs (Decidable (rowKey a ≤ rowKey b))

/-- `load_map_data` from `app.py` lines 40-69, as a function of the rows the
`regulations_map` query returns: an empty response gives the empty
DataFrame (error path); otherwise the rows are sorted by
`['std_sort_key', 'me_id']`.  pandas promises exactly a sorted permutation
(its quicksort is unstable), which insertion sort realises. -/
def load_map_data (rows : List MapRow) : List MapRow :=
  if rows.isEmpty then [] else List.insertionSort rowLe rows

/-- Modelled from the spec's words for C1: split the string on `'.'` and
`'-'` (plain recursive splitter), keep exactly the all-digit parts in order,
and read each as an integer. -/
def splitDelim : List Char → List (List Char)
  | [] => [[]]
  | c :: cs =>
    if delim c then [] :: splitDelim cs
    else
      match splitDelim cs with
      | [] => [[c]]
      | g :: gs => (c :: g) :: gs

/-- Modelled from the spec's words for C1: the sort key as the spec
describes it. -/
def sortKeySpec (s : String) : List Nat :=
  ((splitDelim s.data).filter (fun p => !p.isEmpty && p.all Char.isDigit)).map natOfDigits

/-- The recursive splitter agrees with `List.splitOnP`. -/
theorem splitDelim_eq_splitOnP : ∀ cs : List Char, splitDelim cs = cs.splitOnP delim := by
  intro cs
  induction cs with
  | nil => simp [splitDelim, List.splitOnP_nil]
  | cons c cs ih =>
    rw [List.splitOnP_cons]
    by_cases h : delim c
    · simp [splitDelim, h, ih]
    · rw [splitDelim]
      simp only [h, if_false, ih]
      cases hsp : cs.splitOnP delim with
      | nil => exact absurd hsp (List.splitOnP_ne_nil delim cs)
      | cons g gs => simp [List.modifyHead]

/-- C1: `create_sort_key` computes exactly the spec's key — the integers of
the all-digit parts of the `'.'`/`'-'` split, in order — and
`load_map_data` returns a permutation of its input rows that is
nondecreasing in this key, with `me_id` as the tie-breaker. -/
theorem his_C1 :
    (∀ s : String, create_sort_key s = sortKeySpec s) ∧
    (∀ rows : List MapRow,
      (load_map_data rows).Perm rows ∧
      (load_map_data rows).Pairwise (fun a b =>
        std_sort_key a < std_sort_key b ∨
        (std_sort_key a = std_sort_key b ∧ meTop a ≤ meTop b))) := by
  constructor
  · intro s
    simp only [create_sort_key, sortKeySpec, splitDelim_eq_splitOnP]
    rfl
  · intro rows
    by_cases hempty : rows.isEmpty
    · have hnil : rows = [] := List.isEmpty_iff.mp hempty
      subst hnil
      exact ⟨List.Perm.refl _, List.Pairwise.nil⟩
    · constructor
      · simpa [load_map_data, hempty] using List.perm_insertionSort rowLe rows
      · haveI : IsTotal MapRow rowLe := ⟨fun a b => le_total (rowKey a) (rowKey b)⟩
        haveI : IsTrans MapRow rowLe := ⟨fun a b c hab hbc => le_trans hab hbc⟩
        have hsorted : (List.insertionSort rowLe rows).Pairwise rowLe :=
          List.sorted_insertionSort rowLe rows
        have himp : ∀ {a b : MapRow}, rowLe a b →
            (std_sort_key a < std_sort_key b ∨
             (std_sort_key a = std_sort_key b ∧ meTop a ≤ meTop b)) := by
          intro a b hab
          exact (Prod.Lex.le_iff (std_sort_key a, meTop a) (std_sort_key b, meTop b)).mp hab
        rw [load_map_data, if_neg hempty]
        exact hsorted.imp himp

/-- Does the pattern match at the head of the text?  Fragment of Python
`re` semantics sufficient for keyword queries: every pattern character is a
literal except `'.'`, which matches any single character.  (The searched
queries contain no other metacharacters.) -/
def reMatchHere : List Char → List Char → Bool
  | [], _ => true
  | _ :: _, [] => false
  | p :: ps, t :: ts => (p == '.' || p == t) && reMatchHere ps ts

/-- `re.search`: does the pattern match at some position of the text? -/
def reSearch (pat : List Char) : List Char → Bool
  | [] => reMatchHere pat []
  | t :: ts => reMatchHere pat (t :: ts) || reSearch pat ts

/-- Python `str.lower()` (ASCII model; the Korean text is unaffected by
lowercasing in both Python and this model). -/
def lowerStr (s : String) : String := String.mk (s.data.map Char.toLower)

/-- `df[col].str.lower()`: lowercasing maps NaN to NaN. -/
def lowerCell : Option String → Option String
  | none => none
  | some s => some (lowerStr s)

/-- `Series.str.contains(pat, na=False)` with the default `regex=True`:
NaN yields `False`; a string cell is regex-searched. -/
def strContainsRe (cell : Option String) (pat : String) : Bool :=
  match cell with
  | none => false
  | some s => reSearch pat.data s.data

/-- The keyword-search mask of `app.py` lines 309-316: the query is
lowercased, each of the five columns is lowercased, and the five
`str.contains(query, na=False)` masks are OR-ed. -/
def keyword_mask (q : String) (r : MapRow) : Bool :=
  strContainsRe (lowerCell r.ch_name) (lowerStr q) ||
  strContainsRe (lowerCell r.std_name) (lowerStr q) ||
  strContainsRe (lowerCell r.me_name) (lowerStr q) ||
  strContainsRe (lowerCell r.std_id) (lowerStr q) ||
  strContainsRe (lowerCell r.me_id) (lowerStr q)

/-- `filtered_df = map_data[mask]` from `app.py` line 317. -/
def keyword_filter (q : String) (df : List MapRow) : List MapRow :=
  df.filter (keyword_mask q)

/-- Does `sub` occur at the head of the text, literally? -/
def startsWithChars : List Char → List Char → Bool
  | _, [] => true
  | [], _ :: _ => false
  | t :: ts, s :: ss => (t == s) && startsWithChars ts ss

/-- Plain substring containment. -/
def substrContains (sub : List Char) : List Char → Bool
  | [] => sub.isEmpty
  | t :: ts => startsWithChars (t :: ts) sub || substrContains sub ts

/-- Modelled from the spec's words for C10: the mask as the claim (and the
in-app help text) describe it — case-insensitive plain substring
containment, NaN matching nothing. -/
def strContainsSub (cell : Option String) (pat : String) : Bool :=
  match cell with
  | none => false
  | some s => substrContains pat.data s.data

/-- Modelled from the spec's words for C10: the substring-containment
version of the keyword mask. -/
def keyword_mask_spec (q : String) (r : MapRow) : Bool :=
  strContainsSub (lowerCell r.ch_name) (lowerStr q) ||
  strContainsSub (lowerCell r.std_name) (lowerStr q) ||
  strContainsSub (lowerCell r.me_name) (lowerStr q) ||
  strContainsSub (lowerCell r.std_id) (lowerStr q) ||
  strContainsSub (lowerCell r.me_id) (lowerStr q)

/-- A row whose `std_id` is `HIS-101` — not containing the query
`HIS-1.1` as a substring in any column. -/
def bugRow : MapRow :=
  ⟨2, some "기준", some "HIS-101", some "표준", some "ME-9", some "조사항목",
    some "g.pdf", some "http://x/g.pdf"⟩

/-- C10: pandas `str.contains` defaults to `regex=True`, so the dot in the
in-app example query `HIS-1.1` is a wildcard: the mask accepts the row with
`std_id = "HIS-101"`, which the claimed (and help-text-promised) substring
containment rejects.  The code's mask therefore is not substring
containment. -/
theorem his_C10_bug :
    keyword_mask "HIS-1.1" bugRow = true ∧
    keyword_mask_spec "HIS-1.1" bugRow = false ∧
    keyword_filter "HIS-1.1" [bugRow] = [bugRow] := by
  refine ⟨by decide, by decide, by decide⟩

end App
